import Mathlib

/-!
Verification of the session registry and command-dispatch layer of the
browser-mcp-server repository (src/browser_manager.py, src/models.py,
src/server.py), as a shallow embedding: Python values that flow through
JSON bodies, registry entries and f-strings are modelled by `PyVal`;
the asynchronous HTTP calls are modelled by passing the remote response
as an explicit argument and collecting the issued requests in the
result, so that "zero network calls" and "exactly one network call" are
statable; the mutable registry `self._instances` is threaded as an
association list with Python-dict insert/update/delete semantics.
-/

/-- A Python runtime value as it occurs in this program: `None`, booleans,
integers, strings, lists and (string-keyed) dicts. Floats in the price
payloads are modelled separately by exact rationals (`Price`). -/
inductive PyVal where
  | vNone
  | vBool (b : Bool)
  | vInt (n : Int)
  | vStr (s : String)
  | vList (xs : List PyVal)
  | vDict (kvs : List (String × PyVal))

mutual

/-- Structural equality of `PyVal` (Python `==` on these values). -/
def pvBeq : PyVal → PyVal → Bool
  | .vNone, .vNone => true
  | .vBool a, .vBool b => a == b
  | .vInt a, .vInt b => a == b
  | .vStr a, .vStr b => a == b
  | .vList a, .vList b => pvBeqList a b
  | .vDict a, .vDict b => pvBeqDict a b
  | _, _ => false

/-- Elementwise `pvBeq` on lists. -/
def pvBeqList : List PyVal → List PyVal → Bool
  | [], [] => true
  | a :: as, b :: bs => pvBeq a b && pvBeqList as bs
  | _, _ => false

/-- Entrywise `pvBeq` on dict entry lists. -/
def pvBeqDict : List (String × PyVal) → List (String × PyVal) → Bool
  | [], [] => true
  | (k1, v1) :: as, (k2, v2) :: bs => k1 == k2 && pvBeq v1 v2 && pvBeqDict as bs
  | _, _ => false

end

/-- A single-quote character, used by the Python `repr` rendering. -/
def pyQuote : String := String.singleton (Char.ofNat 39)

mutual

/-- Python `repr` of a value (strings without embedded quote or escape
characters, which is all this program ever renders). -/
def pyRepr : PyVal → String
  | .vNone => "None"
  | .vBool b => if b then "True" else "False"
  | .vInt n => toString n
  | .vStr s => pyQuote ++ s ++ pyQuote
  | .vList xs => "[" ++ pyReprList xs ++ "]"
  | .vDict kvs => "\x7b" ++ pyReprDict kvs ++ "\x7d"

/-- Comma-separated `repr` of list elements. -/
def pyReprList : List PyVal → String
  | [] => ""
  | [x] => pyRepr x
  | x :: xs => pyRepr x ++ ", " ++ pyReprList xs

/-- Comma-separated `repr` of dict entries. -/
def pyReprDict : List (String × PyVal) → String
  | [] => ""
  | [(k, v)] => pyQuote ++ k ++ pyQuote ++ ": " ++ pyRepr v
  | (k, v) :: xs => pyQuote ++ k ++ pyQuote ++ ": " ++ pyRepr v ++ ", " ++ pyReprDict xs

end

/-- Python `str()` of a value, as used by f-string interpolation
(`f"Bearer {token}"`, `f"...{sid}/command"`, `str(e)`). -/
def pyStr : PyVal → String
  | .vStr s => s
  | v => pyRepr v

/-- Python truthiness of a value. -/
def pyTruthy : PyVal → Bool
  | .vNone => false
  | .vBool b => b
  | .vInt n => n != 0
  | .vStr s => !s.isEmpty
  | .vList xs => !xs.isEmpty
  | .vDict kvs => !kvs.isEmpty

/-- Python `a or b` on values: `a` when truthy, else `b`. -/
def pyOr (a b : PyVal) : PyVal := if pyTruthy a then a else b

/-- Truthiness of an `Optional[str]`: `None` and `""` are falsy. -/
def optStrTruthy : Option String → Bool
  | some s => !s.isEmpty
  | none => false

/-- Truthiness of an `Optional[int]`: `None` and `0` are falsy. -/
def optIntTruthy : Option Int → Bool
  | some n => n != 0
  | none => false

/-- Python `a or b` on optional strings (used for the
`payment_signature or environ` fallback). -/
def pyOrStr (a b : Option String) : Option String :=
  if optStrTruthy a then a else b

/-- `d.get(key)`: first entry with the given key, if any. JSON objects and
the request/response dicts of this program are modelled as association
lists, preserving Python dict insertion order. -/
def dGet : List (String × PyVal) → String → Option PyVal
  | [], _ => none
  | (k, v) :: es, key => if k == key then some v else dGet es key

/-- `d.get(key, dflt)`: the default applies only when the key is absent,
not when it is present with value `None`. -/
def dGetD (d : List (String × PyVal)) (key : String) (dflt : PyVal) : PyVal :=
  (dGet d key).getD dflt

/-- `d[key] = v`: replace the value in place when the key exists,
else append the new entry (Python dict assignment keeps order). -/
def dSet : List (String × PyVal) → String → PyVal → List (String × PyVal)
  | [], key, v => [(key, v)]
  | (k, w) :: es, key, v => if k == key then (k, v) :: es else (k, w) :: dSet es key v

/-- `d.update(ps)`: assign every entry of `ps` into `d` in order. -/
def dUpdate (d : List (String × PyVal)) (ps : List (String × PyVal)) :
    List (String × PyVal) :=
  ps.foldl (fun acc kv => dSet acc kv.1 kv.2) d

/-- Browser lifecycle states (models.BrowserState). -/
inductive BrowserState where
  | starting
  | ready
  | navigating
  | error
  | closed
  deriving DecidableEq

/-- Viewport dimensions (the `{"width": w, "height": h}` dict). -/
structure Viewport where
  width : Int
  height : Int
  deriving DecidableEq

/-- models.BrowserInstance: the locally cached instance view. The
`instance_id`, `current_url` and `title` fields hold raw Python values,
since the source assigns response fields to them without validation;
timestamps are abstract ticks supplied by the caller. -/
structure BrowserInstance where
  instance_id : PyVal
  state : BrowserState
  current_url : PyVal
  title : PyVal
  created_at : Nat
  last_activity : Nat
  headless : Bool
  user_agent : Option String
  viewport : Viewport

/-- models.BrowserOptions with its pydantic defaults. -/
structure BrowserOptions where
  country : Option String := none
  duration_minutes : Option Int := some 60
  profile_id : Option String := none
  payment_signature : Option String := none
  user_agent : Option String := none
  viewport_width : Int := 1920
  viewport_height : Int := 1080

/-- One registry entry of `BrowserManager._instances`. The source stores a
plain dict; keys absent from a given record (e.g. `expires_at` on the
`payment_required` sentinel) are modelled as `none`. The field `inst`
models the dict key `"instance"` (`instance` is a Lean keyword). -/
structure SessionRecord where
  inst : BrowserInstance
  session_id : PyVal
  session_token : PyVal
  expires_at : Option PyVal := none
  proxy : Option PyVal := none
  fingerprint : Option PyVal := none
  loaded_profile_id : Option PyVal := none
  payment_info : Option (List (String × PyVal)) := none

/-- The registry `self._instances`: a Python dict keyed by raw values
(`close_all` iterates raw keys, and `spawn_browser` stores under the raw
`session_id` response field), modelled as an association list. -/
abbrev Reg := List (PyVal × SessionRecord)

/-- Registry lookup `self._instances.get(instance_id)`. -/
def regGet : Reg → PyVal → Option SessionRecord
  | [], _ => none
  | e :: es, k => if pvBeq e.1 k then some e.2 else regGet es k

/-- Registry assignment `self._instances[k] = v`: replace in place when a
key equal to `k` exists, else append. -/
def regSet : Reg → PyVal → SessionRecord → Reg
  | [], k, v => [(k, v)]
  | e :: es, k, v => if pvBeq e.1 k then (e.1, v) :: es else e :: regSet es k v

/-- Registry deletion `del self._instances[k]`: dict keys are unique, so
removing every entry with an equal key coincides with deleting the single
entry. -/
def regDel (reg : Reg) (k : PyVal) : Reg :=
  reg.filter (fun e => !(pvBeq e.1 k))

/-- A parsed HTTP response: status code plus decoded JSON object body
(every response body in this code immediately undergoes dict field
access, so bodies are modelled as JSON objects). -/
structure HttpResp where
  status : Nat
  body : List (String × PyVal)

/-- The configured base URL (`BROWSER_API_URL` environment override,
modelled as its documented default). -/
def API_BASE : String := "https://browser.proxies.sx"

/-- The creation request body built by `BrowserManager.spawn_browser`
(browser_manager.py lines 52-60): optional `country`, `durationMinutes`
with its truthiness-based default of 60, optional `profile_id`. The
`hasattr` guards are always true on a `BrowserOptions` instance. -/
def spawn_request_body (o : BrowserOptions) : List (String × PyVal) :=
  let b : List (String × PyVal) := []
  let b := match o.country with
    | some c => if !c.isEmpty then dSet b "country" (.vStr c) else b
    | none => b
  let b := match o.duration_minutes with
    | some n => if n != 0 then dSet b "durationMinutes" (.vInt n)
                else dSet b "durationMinutes" (.vInt 60)
    | none => dSet b "durationMinutes" (.vInt 60)
  let b := match o.profile_id with
    | some p => if !p.isEmpty then dSet b "profile_id" (.vStr p) else b
    | none => b
  b

/-- The creation request headers (browser_manager.py lines 62-70); the two
environment variables are passed explicitly. -/
def spawn_request_headers (o : BrowserOptions)
    (env_payment_signature env_internal_key : Option String) :
    List (String × String) :=
  let h := [("Content-Type", "application/json")]
  let payment_sig := pyOrStr o.payment_signature env_payment_signature
  let h := if optStrTruthy payment_sig
           then h ++ [("Payment-Signature", payment_sig.getD "")] else h
  let h := if optStrTruthy env_internal_key
           then h ++ [("X-Internal-Key", env_internal_key.getD "")] else h
  h

/-- The exceptions `spawn_browser` can raise: the distinguished
`PaymentRequiredError` carrying the full response body, or a generic
`Exception` carrying a message. -/
inductive SpawnExc where
  | paymentRequired (payment_info : List (String × PyVal))
  | exc (msg : String)

/-- The `BrowserInstance` constructed at the top of `spawn_browser`
(browser_manager.py lines 42-47), before the HTTP call. -/
def mkPendingInstance (o : BrowserOptions) (now : Nat) : BrowserInstance :=
  { instance_id := .vStr "pending"
    state := .starting
    current_url := .vNone
    title := .vNone
    created_at := now
    last_activity := now
    headless := true
    user_agent := o.user_agent
    viewport := ⟨o.viewport_width, o.viewport_height⟩ }

/-- The `try` body of `BrowserManager.spawn_browser` from the point the
response is decoded (browser_manager.py lines 72-107), as a function of
the response: 402 stores the sentinel record and raises
`PaymentRequiredError(data)`; other non-200/201 statuses raise a generic
error from the body's `error` field or the status; 200/201 extracts
`session_id`, defaults `session_token` to it when the key is absent,
marks the instance ready and stores the record under `session_id`. -/
def spawn_browser_try (o : BrowserOptions) (resp : HttpResp) (reg : Reg)
    (now : Nat) : Except SpawnExc BrowserInstance × Reg :=
  let inst0 := mkPendingInstance o now
  let data := resp.body
  if resp.status = 402 then
    let inst := { inst0 with state := .error, instance_id := .vStr "payment_required" }
    (.error (.paymentRequired data),
     regSet reg (.vStr "payment_required")
       { inst := inst, session_id := .vNone, session_token := .vNone,
         payment_info := some data })
  else if resp.status ≠ 200 ∧ resp.status ≠ 201 then
    (.error (.exc (pyStr (dGetD data "error"
        (.vStr ("API error " ++ toString resp.status))))), reg)
  else
    let session_id := (dGet data "session_id").getD .vNone
    let session_token := dGetD data "session_token" session_id
    let inst := { inst0 with instance_id := session_id, state := .ready }
    (.ok inst,
     regSet reg session_id
       { inst := inst, session_id := session_id, session_token := session_token,
         expires_at := some (pyOr ((dGet data "expires_at").getD .vNone)
                                  ((dGet data "expiresAt").getD .vNone)),
         proxy := some (dGetD data "proxy" (.vDict [])),
         fingerprint := some (dGetD data "fingerprint" (.vDict [])),
         loaded_profile_id := some ((dGet data "loaded_profile_id").getD .vNone) })

/-- The exception handlers of `spawn_browser` (browser_manager.py lines
109-113): `PaymentRequiredError` is re-raised unchanged; every other
exception is wrapped into a generic creation failure. -/
def reraiseSpawn : SpawnExc → SpawnExc
  | .paymentRequired d => .paymentRequired d
  | .exc m => .exc ("Failed to create browser session: " ++ m)

/-- `BrowserManager.spawn_browser` as a whole: the `try` body with the
response supplied, routed through the exception handlers. -/
def spawn_browser (o : BrowserOptions) (resp : HttpResp) (reg : Reg)
    (now : Nat) : Except SpawnExc BrowserInstance × Reg :=
  match spawn_browser_try o resp reg now with
  | (.error e, reg2) => (.error (reraiseSpawn e), reg2)
  | ok => ok

/-- One HTTP request as issued by `send_command`: URL, JSON body, headers. -/
structure CmdRequest where
  url : String
  body : List (String × PyVal)
  headers : List (String × String)

/-- Outcome of a dispatch: the network requests actually issued (empty or a
singleton) and the returned value or raised error message. -/
structure CmdOutcome where
  requests : List CmdRequest
  result : Except String (List (String × PyVal))

/-- `BrowserManager.send_command` (browser_manager.py lines 115-143):
resolve the record (raising "No browser instance: ..." when absent,
before any network traffic), build the command body by merging
`{"action": action}` with `params` (a falsy `params` skips the update),
POST once to the per-session command endpoint with a bearer header
rendered from the stored token, and return the decoded body on 200 or
raise the server message or status otherwise. -/
def send_command (reg : Reg) (instance_id : PyVal) (action : String)
    (params : Option (List (String × PyVal))) (resp : HttpResp) : CmdOutcome :=
  match regGet reg instance_id with
  | none => ⟨[], .error ("No browser instance: " ++ pyStr instance_id)⟩
  | some session =>
    let sid := session.session_id
    let token := session.session_token
    let body0 : List (String × PyVal) := [("action", .vStr action)]
    let body := match params with
      | some ps => if !ps.isEmpty then dUpdate body0 ps else body0
      | none => body0
    let req : CmdRequest :=
      { url := API_BASE ++ "/v1/sessions/" ++ pyStr sid ++ "/command"
        body := body
        headers := [("Content-Type", "application/json"),
                    ("Authorization", "Bearer " ++ pyStr token)] }
    if resp.status ≠ 200 then
      ⟨[req], .error (pyStr (dGetD resp.body "error"
          (.vStr ("Command failed: " ++ toString resp.status))))⟩
    else
      ⟨[req], .ok resp.body⟩

/-- `BrowserManager.navigate` (browser_manager.py lines 145-155): dispatch
the `navigate` action; on success, if the instance is still registered,
update its cached URL (response `url` field, else the requested URL),
title (response `title` field, else empty), state and activity tick. A
raised dispatch error propagates and leaves the registry untouched. -/
def navigate (reg : Reg) (instance_id : PyVal) (url : String)
    (wait_until : String) (resp : HttpResp) (now : Nat) : CmdOutcome × Reg :=
  let out := send_command reg instance_id "navigate"
    (some [("url", .vStr url), ("wait_until", .vStr wait_until)]) resp
  match out.result with
  | .error _ => (out, reg)
  | .ok result =>
    match regGet reg instance_id with
    | none => (out, reg)
    | some session =>
      let inst := session.inst
      let inst2 := { inst with
        current_url := dGetD result "url" (.vStr url)
        title := dGetD result "title" (.vStr "")
        state := .ready
        last_activity := now }
      (out, regSet reg instance_id { session with inst := inst2 })

/-- `BrowserManager.close_browser` (browser_manager.py lines 310-332):
absent id returns `False`; otherwise one remote delete is attempted
(`deleteThrows` says whether it raises) and the record is removed on both
the normal path and the exception path, returning `True`. -/
def close_browser (reg : Reg) (instance_id : PyVal) (deleteThrows : Bool) :
    Bool × Reg :=
  match regGet reg instance_id with
  | none => (false, reg)
  | some _ =>
    if deleteThrows then
      (true, if (regGet reg instance_id).isSome then regDel reg instance_id else reg)
    else
      (true, regDel reg instance_id)

/-- `BrowserManager.close_all` (browser_manager.py lines 334-341): snapshot
the tracked keys, then close each, swallowing per-id failures;
`throws` says, per key, whether that remote delete raises. -/
def close_all (reg : Reg) (throws : PyVal → Bool) : Reg :=
  (reg.map Prod.fst).foldl (fun r iid => (close_browser r iid (throws iid)).2) reg

/-- The heterogeneous `price` field of a payment-required payload: a bare
Python number (int or float, modelled exactly as a rational), a dict
whose `float()`-coerced `amount` field may be absent, or any other
`float()`-coercible value (e.g. a numeric string). -/
inductive Price where
  | num (q : ℚ)
  | obj (amount : Option ℚ)
  | other (q : ℚ)

/-- Price normalization of `PaymentRequiredError.__init__`
(browser_manager.py lines 380-386): a bare number above 1000 is
micro-denominated and divided by 1,000,000; a dict contributes its
`amount` field (0 when absent); anything else is `float()`-coerced as an
already-decimal amount. -/
def normalize_price_error (p : Price) : ℚ :=
  match p with
  | .num q => if q > 1000 then q / 1000000 else q
  | .obj a => a.getD 0
  | .other q => q

/-- The same normalization as transcribed from the `PaymentRequiredError`
handler of the `spawn_browser` tool (server.py lines 160-167). -/
def normalize_price_spawn_tool (p : Price) : ℚ :=
  match p with
  | .num q => if q > 1000 then q / 1000000 else q
  | .obj a => a.getD 0
  | .other q => q

/-! Concrete inputs used by the per-claim evaluation theorems. -/

/-- A payment-required response body as returned with HTTP 402. -/
def c1_payment_body : List (String × PyVal) :=
  [("price", .vInt 1500000), ("networks", .vList [])]

/-- The registry left behind by a creation call that received HTTP 402. -/
def c1_reg : Reg := (spawn_browser {} ⟨402, c1_payment_body⟩ [] 0).2

/-- Dispatching a command to the `payment_required` sentinel id. -/
def c1_outcome : CmdOutcome :=
  send_command c1_reg (.vStr "payment_required") "navigate"
    (some [("url", .vStr "https://example.com")])
    ⟨200, [("url", .vStr "https://example.com")]⟩

/-- A creation response body carrying both a session id and a token. -/
def c5_body : List (String × PyVal) :=
  [("session_id", .vStr "s1"), ("session_token", .vStr "t1")]

/-- A live session record for the dispatch witness. -/
def c6_record : SessionRecord :=
  { inst := mkPendingInstance {} 0
    session_id := .vStr "s1"
    session_token := .vStr "t1" }

/-- A registry holding one live session, for the dispatch witness. -/
def c6_reg : Reg := [(.vStr "s1", c6_record)]

/-- A live session record for the navigate witness. -/
def c7_record : SessionRecord :=
  { inst := mkPendingInstance {} 0
    session_id := .vStr "s1"
    session_token := .vStr "t1" }

/-- A registry holding one live session, for the navigate witness. -/
def c7_reg : Reg := [(.vStr "s1", c7_record)]

/-- A live session record for the close witness. -/
def c8_record : SessionRecord :=
  { inst := mkPendingInstance {} 0
    session_id := .vStr "s1"
    session_token := .vStr "t1" }

/-- A registry holding one live session, for the close witness. -/
def c8_reg : Reg := [(.vStr "s1", c8_record)]

/-- A creation response whose `session_token` key is present with value
`None`. -/
def c10_body : List (String × PyVal) :=
  [("session_id", .vStr "s1"), ("session_token", .vNone)]

/-! Helper lemmas about the registry operations. -/

theorem pvBeq_vStr_self (s : String) : pvBeq (.vStr s) (.vStr s) = true := by
  simp [pvBeq]

theorem regGet_regSet_self (reg : Reg) (k : PyVal) (v : SessionRecord)
    (hk : pvBeq k k = true) : regGet (regSet reg k v) k = some v := by
  induction reg with
  | nil => simp [regSet, regGet, hk]
  | cons e es ih =>
    by_cases h : pvBeq e.1 k = true
    · simp [regSet, regGet, h]
    · simp [regSet, regGet, h, ih]

theorem regGet_regDel_self (reg : Reg) (k : PyVal) :
    regGet (regDel reg k) k = none := by
  induction reg with
  | nil => rfl
  | cons e es ih =>
    by_cases h : pvBeq e.1 k = true
    · simpa [regDel, List.filter_cons, h] using ih
    · simpa [regDel, List.filter_cons, h, regGet] using ih

theorem regGet_regDel_of_none (reg : Reg) (j k : PyVal)
    (h : regGet reg j = none) : regGet (regDel reg k) j = none := by
  induction reg with
  | nil => rfl
  | cons e es ih =>
    by_cases he : pvBeq e.1 j = true
    · simp [regGet, he] at h
    · simp only [regGet, he, if_neg, Bool.not_eq_true] at h
      by_cases hk : pvBeq e.1 k = true
      · simpa [regDel, List.filter_cons, hk] using ih (by simpa [regGet, he] using h)
      · simpa [regDel, List.filter_cons, hk, regGet, he] using
          ih (by simpa [regGet, he] using h)

theorem close_browser_regGet_self (reg : Reg) (iid : PyVal) (dt : Bool) :
    regGet (close_browser reg iid dt).2 iid = none := by
  cases h : regGet reg iid with
  | none => simp [close_browser, h]
  | some s => cases dt <;> simp [close_browser, h, regGet_regDel_self]

theorem close_browser_regGet_of_none (reg : Reg) (iid j : PyVal) (dt : Bool)
    (h : regGet reg j = none) : regGet (close_browser reg iid dt).2 j = none := by
  cases hr : regGet reg iid with
  | none => simpa [close_browser, hr] using h
  | some s => cases dt <;> simp [close_browser, hr, regGet_regDel_of_none _ _ _ h]

theorem close_fold_regGet_none (ids : List PyVal) (throws : PyVal → Bool) :
    ∀ (r : Reg) (k : PyVal), (k ∈ ids ∨ regGet r k = none) →
      regGet (ids.foldl (fun r iid => (close_browser r iid (throws iid)).2) r) k
        = none := by
  induction ids with
  | nil =>
    intro r k h
    rcases h with h | h
    · cases h
    · simpa using h
  | cons i ids ih =>
    intro r k h
    simp only [List.foldl_cons]
    apply ih
    rcases h with h | h
    · rcases List.mem_cons.mp h with rfl | hm
      · exact Or.inr (close_browser_regGet_self r k (throws k))
      · exact Or.inl hm
    · exact Or.inr (close_browser_regGet_of_none r i k (throws i) h)

/-- C1: after a 402 creation has inserted the `payment_required` sentinel
record, dispatching a command to that id does NOT fail with the
"No browser instance" error and does NOT stay off the network: the
sentinel is found in the registry, exactly one request is issued to
`/v1/sessions/None/command`, and its bearer header is rendered from the
stored `None` token. This contradicts the claim (and the spec invariant)
that such a dispatch must fail with an instance-not-found error and
issue no network call. -/
theorem C1_sentinel_dispatch_executes :
    (regGet c1_reg (.vStr "payment_required")).isSome = true
    ∧ c1_outcome.requests.length = 1
    ∧ c1_outcome.requests.map CmdRequest.url
        = ["https://browser.proxies.sx/v1/sessions/None/command"]
    ∧ c1_outcome.requests.map CmdRequest.headers
        = [[("Content-Type", "application/json"), ("Authorization", "Bearer None")]]
    ∧ c1_outcome.result ≠ .error ("No browser instance: payment_required") := by
  refine ⟨rfl, rfl, rfl, rfl, ?_⟩
  rw [show c1_outcome.result
      = .ok [("url", PyVal.vStr "https://example.com")] from rfl]
  exact fun h => Except.noConfusion h

/-- C2: price normalization — a bare number strictly above 1000 is divided
by 1,000,000; a structured object contributes its `amount` (0 when
absent); anything else is the price itself; `1500000 ↦ 1.50`,
`{amount: 0.30} ↦ 0.30`, `0.30 ↦ 0.30`; and the rule transcribed from
`PaymentRequiredError.__init__` agrees with the one transcribed from the
`spawn_browser` tool handler on every price. -/
theorem C2_price_normalization :
    (∀ p, normalize_price_error p = normalize_price_spawn_tool p)
    ∧ (∀ q : ℚ, normalize_price_error (.num q)
        = if q > 1000 then q / 1000000 else q)
    ∧ (∀ a, normalize_price_error (.obj a) = a.getD 0)
    ∧ (∀ q : ℚ, normalize_price_error (.other q) = q)
    ∧ normalize_price_error (.num 1500000) = 3/2
    ∧ normalize_price_error (.obj (some (3/10))) = 3/10
    ∧ normalize_price_error (.num (3/10)) = 3/10
    ∧ normalize_price_error (.obj none) = 0 := by
  refine ⟨fun p => by cases p <;> rfl, fun q => rfl, fun a => rfl, fun q => rfl,
    ?_, rfl, ?_, rfl⟩
  · norm_num [normalize_price_error]
  · norm_num [normalize_price_error]

/-- C3 counterexample: HTTP 202 is in the 2xx range and is not 402, yet
creation fails with the generic wrapped error and inserts nothing, even
when the body carries a valid session id and token — refuting the claim
that every non-402 2xx status succeeds. -/
theorem C3_counterexample_status_202 :
    (200 ≤ 202 ∧ 202 < 300 ∧ (202 : Nat) ≠ 402)
    ∧ (spawn_browser {}
        ⟨202, [("session_id", .vStr "s1"), ("session_token", .vStr "t1")]⟩ [] 0).1
        = .error (.exc "Failed to create browser session: API error 202")
    ∧ (spawn_browser {}
        ⟨202, [("session_id", .vStr "s1"), ("session_token", .vStr "t1")]⟩ [] 0).2
        = [] := by
  exact ⟨⟨by norm_num, by norm_num, by norm_num⟩, rfl, rfl⟩

/-- C3 (amended): creation succeeds exactly on HTTP 200 and 201 — the
session id is extracted, the instance is marked ready and the record is
stored under `session_id` with the token defaulting rule — while every
status other than 200, 201 and 402 fails with the generic wrapped error
carrying the server-reported message or HTTP status, leaving the
registry unchanged. -/
theorem C3_creation_status_dichotomy (o : BrowserOptions) (status : Nat)
    (body : List (String × PyVal)) (reg : Reg) (now : Nat) :
    (∀ sid : PyVal, (status = 200 ∨ status = 201) →
      dGet body "session_id" = some sid →
      ∃ inst rec2, (spawn_browser o ⟨status, body⟩ reg now).1 = .ok inst
        ∧ inst.instance_id = sid ∧ inst.state = .ready
        ∧ (spawn_browser o ⟨status, body⟩ reg now).2 = regSet reg sid rec2
        ∧ rec2.inst = inst ∧ rec2.session_id = sid
        ∧ rec2.session_token = dGetD body "session_token" sid)
    ∧ (status ≠ 200 → status ≠ 201 → status ≠ 402 →
        (spawn_browser o ⟨status, body⟩ reg now).1
          = .error (.exc ("Failed to create browser session: "
              ++ pyStr (dGetD body "error"
                  (.vStr ("API error " ++ toString status)))))
        ∧ (spawn_browser o ⟨status, body⟩ reg now).2 = reg) := by
  constructor
  · intro sid hs hsid
    rcases hs with rfl | rfl <;>
      simp only [spawn_browser, spawn_browser_try, hsid, Option.getD_some] <;>
      norm_num <;>
      exact ⟨_, rfl, rfl, rfl, rfl⟩
  · intro h1 h2 h3
    simp only [spawn_browser, spawn_browser_try]
    rw [if_neg h3, if_pos ⟨h1, h2⟩]
    exact ⟨rfl, rfl⟩

/-- C3 witness: a 200 creation with session id `s1` succeeds and stores the
record, and a 500 creation fails generically with the status in the
message and leaves the registry empty. -/
theorem C3_creation_status_dichotomy_witness :
    (∃ inst rec2,
      (spawn_browser {} ⟨200, [("session_id", .vStr "s1")]⟩ [] 0).1 = .ok inst
      ∧ inst.instance_id = .vStr "s1" ∧ inst.state = .ready
      ∧ (spawn_browser {} ⟨200, [("session_id", .vStr "s1")]⟩ [] 0).2
          = regSet [] (.vStr "s1") rec2
      ∧ rec2.inst = inst ∧ rec2.session_id = .vStr "s1"
      ∧ rec2.session_token = .vStr "s1")
    ∧ ((spawn_browser {} ⟨500, []⟩ [] 0).1
        = .error (.exc "Failed to create browser session: API error 500")
      ∧ (spawn_browser {} ⟨500, []⟩ [] 0).2 = []) :=
  ⟨(C3_creation_status_dichotomy {} 200 [("session_id", .vStr "s1")] [] 0).1
      (.vStr "s1") (Or.inl rfl) rfl,
   (C3_creation_status_dichotomy {} 500 [] [] 0).2
      (by decide) (by decide) (by decide)⟩

/-- C4: an HTTP 402 creation response raises the distinguished
PaymentRequired condition carrying the full response body, inserts the
synthetic error-state sentinel record under `payment_required` with no
session id or token, and the condition passes the exception handlers
unchanged while every other exception is wrapped into the generic
creation failure. -/
theorem C4_payment_required_handling (o : BrowserOptions)
    (body : List (String × PyVal)) (reg : Reg) (now : Nat) :
    spawn_browser o ⟨402, body⟩ reg now
      = (.error (.paymentRequired body),
         regSet reg (.vStr "payment_required")
           { inst := { mkPendingInstance o now with
                        state := .error, instance_id := .vStr "payment_required" }
             session_id := .vNone
             session_token := .vNone
             payment_info := some body })
    ∧ reraiseSpawn (.paymentRequired body) = .paymentRequired body
    ∧ (∀ m, reraiseSpawn (.exc m)
        = .exc ("Failed to create browser session: " ++ m)) :=
  ⟨rfl, rfl, fun _ => rfl⟩

/-- C5: on a successful creation the returned instance id equals the
response's `session_id`, and looking that id up afterwards yields a
record whose stored token is the response's `session_token` when the key
is present, and `session_id` when the key is absent. -/
theorem C5_token_defaulting (o : BrowserOptions) (status : Nat)
    (body : List (String × PyVal)) (reg : Reg) (now : Nat) (s : String) :
    (status = 200 ∨ status = 201) →
    dGet body "session_id" = some (.vStr s) →
    ∃ rec2, (spawn_browser o ⟨status, body⟩ reg now).1 = .ok rec2.inst
      ∧ rec2.inst.instance_id = .vStr s
      ∧ regGet (spawn_browser o ⟨status, body⟩ reg now).2 (.vStr s) = some rec2
      ∧ (∀ tok, dGet body "session_token" = some tok → rec2.session_token = tok)
      ∧ (dGet body "session_token" = none → rec2.session_token = .vStr s) := by
  intro hs hsid
  rcases hs with rfl | rfl <;>
    · simp only [spawn_browser, spawn_browser_try, hsid, Option.getD_some]
      norm_num
      refine ⟨_, rfl, rfl,
        regGet_regSet_self reg (.vStr s) _ (pvBeq_vStr_self s), ?_, ?_⟩
      · intro tok htok; simp [dGetD, htok]
      · intro habs; simp [dGetD, habs]

/-- C5 witness: a 201 creation with `session_id = "s1"` and
`session_token = "t1"` stores a record retrievable under `s1` whose token
follows the response. -/
theorem C5_token_defaulting_witness :
    ∃ rec2, (spawn_browser {} ⟨201, c5_body⟩ [] 0).1 = .ok rec2.inst
      ∧ rec2.inst.instance_id = .vStr "s1"
      ∧ regGet (spawn_browser {} ⟨201, c5_body⟩ [] 0).2 (.vStr "s1") = some rec2
      ∧ (∀ tok, dGet c5_body "session_token" = some tok →
          rec2.session_token = tok)
      ∧ (dGet c5_body "session_token" = none → rec2.session_token = .vStr "s1") :=
  C5_token_defaulting {} 201 c5_body [] 0 "s1" (Or.inr rfl) rfl

/-- C6: dispatching to an id absent from the registry fails with the
unknown-instance error and issues zero network calls; dispatching to a
present id issues exactly one POST to the per-session command endpoint
whose body merges `{action}` with the given params and whose
Authorization header is "Bearer " followed by the record's stored token;
on HTTP 200 the decoded body is returned verbatim, on any other status
the call fails with the server message or the status code. -/
theorem C6_dispatch_contract (reg : Reg) (iid : PyVal) (action : String)
    (params : Option (List (String × PyVal))) (resp : HttpResp) :
    (regGet reg iid = none →
      (send_command reg iid action params resp).requests = []
      ∧ (send_command reg iid action params resp).result
          = .error ("No browser instance: " ++ pyStr iid))
    ∧ (∀ session, regGet reg iid = some session →
        (send_command reg iid action params resp).requests
          = [{ url := API_BASE ++ "/v1/sessions/"
                  ++ pyStr session.session_id ++ "/command"
               body := dUpdate [("action", .vStr action)] (params.getD [])
               headers := [("Content-Type", "application/json"),
                           ("Authorization",
                            "Bearer " ++ pyStr session.session_token)] }]
        ∧ (resp.status = 200 →
            (send_command reg iid action params resp).result = .ok resp.body)
        ∧ (resp.status ≠ 200 →
            (send_command reg iid action params resp).result
              = .error (pyStr (dGetD resp.body "error"
                  (.vStr ("Command failed: " ++ toString resp.status)))))) := by
  constructor
  · intro h
    exact ⟨by simp [send_command, h], by simp [send_command, h]⟩
  · intro session h
    have hbody : (match params with
        | some ps => if !ps.isEmpty
            then dUpdate [("action", PyVal.vStr action)] ps
            else [("action", PyVal.vStr action)]
        | none => [("action", PyVal.vStr action)])
        = dUpdate [("action", PyVal.vStr action)] (params.getD []) := by
      cases params with
      | none => rfl
      | some ps => cases ps with
        | nil => rfl
        | cons a l => rfl
    refine ⟨?_, ?_, ?_⟩
    · simp only [send_command, h, hbody]
      split <;> rfl
    · intro h200
      simp [send_command, h, h200]
    · intro hne
      simp [send_command, h, hne]

/-- C6 witness: a dispatch to an empty registry issues nothing and fails
with the unknown-instance message; a dispatch to a live record issues the
one expected authenticated request and returns the 200 body. -/
theorem C6_dispatch_contract_witness :
    ((send_command [] (.vStr "nope") "click" none ⟨200, []⟩).requests = []
     ∧ (send_command [] (.vStr "nope") "click" none ⟨200, []⟩).result
         = .error "No browser instance: nope")
    ∧ ((send_command c6_reg (.vStr "s1") "click"
          (some [("selector", .vStr "#a")]) ⟨200, [("ok", .vBool true)]⟩).requests
        = [{ url := "https://browser.proxies.sx/v1/sessions/s1/command"
             body := [("action", .vStr "click"), ("selector", .vStr "#a")]
             headers := [("Content-Type", "application/json"),
                         ("Authorization", "Bearer t1")] }]
       ∧ ((200 : Nat) = 200 →
           (send_command c6_reg (.vStr "s1") "click"
             (some [("selector", .vStr "#a")]) ⟨200, [("ok", .vBool true)]⟩).result
             = .ok [("ok", .vBool true)])
       ∧ ((200 : Nat) ≠ 200 →
           (send_command c6_reg (.vStr "s1") "click"
             (some [("selector", .vStr "#a")]) ⟨200, [("ok", .vBool true)]⟩).result
             = .error "Command failed: 200")) :=
  ⟨(C6_dispatch_contract [] (.vStr "nope") "click" none ⟨200, []⟩).1 rfl,
   (C6_dispatch_contract c6_reg (.vStr "s1") "click"
      (some [("selector", .vStr "#a")]) ⟨200, [("ok", .vBool true)]⟩).2
      c6_record rfl⟩

/-- C7: a successful navigate whose instance is still registered sets the
cached URL to the response's `url` field when present (else the requested
URL), the title to the response's `title` field (else the empty string),
marks the state ready and stamps the activity tick, while every other
field of the instance and of the session record is unchanged. -/
theorem C7_navigate_updates (reg : Reg) (iid : PyVal) (url wu : String)
    (resp : HttpResp) (now : Nat) (session : SessionRecord) :
    resp.status = 200 → regGet reg iid = some session →
    (navigate reg iid url wu resp now).1.result = .ok resp.body
    ∧ (navigate reg iid url wu resp now).2
        = regSet reg iid
            { session with inst :=
              { session.inst with
                  current_url := dGetD resp.body "url" (.vStr url)
                  title := dGetD resp.body "title" (.vStr "")
                  state := .ready
                  last_activity := now } } := by
  intro h200 hreg
  constructor
  · simp [navigate, send_command, hreg, h200]
  · simp [navigate, send_command, hreg, h200]

/-- C7 witness: navigating a live instance with a 200 response carrying
`url` and `title` updates exactly the cached URL, title, state and
activity tick of the stored record. -/
theorem C7_navigate_updates_witness :
    (navigate c7_reg (.vStr "s1") "https://example.com" "domcontentloaded"
        ⟨200, [("url", .vStr "https://example.com/next"),
               ("title", .vStr "Next")]⟩ 7).1.result
      = .ok [("url", .vStr "https://example.com/next"), ("title", .vStr "Next")]
    ∧ (navigate c7_reg (.vStr "s1") "https://example.com" "domcontentloaded"
        ⟨200, [("url", .vStr "https://example.com/next"),
               ("title", .vStr "Next")]⟩ 7).2
      = regSet c7_reg (.vStr "s1")
          { c7_record with inst :=
            { c7_record.inst with
                current_url := .vStr "https://example.com/next"
                title := .vStr "Next"
                state := .ready
                last_activity := 7 } } :=
  C7_navigate_updates c7_reg (.vStr "s1") "https://example.com"
    "domcontentloaded"
    ⟨200, [("url", .vStr "https://example.com/next"), ("title", .vStr "Next")]⟩
    7 c7_record rfl rfl

/-- C8: close_browser returns false exactly when the id is absent; when the
id is present it returns true and the id is gone afterwards, whether or
not the remote delete throws; and after close_all every previously
tracked id is absent, even if individual removals raised. -/
theorem C8_close_semantics (reg : Reg) (iid : PyVal) (dt : Bool)
    (throws : PyVal → Bool) :
    ((close_browser reg iid dt).1 = false ↔ regGet reg iid = none)
    ∧ (regGet reg iid ≠ none →
        (close_browser reg iid dt).1 = true
        ∧ regGet (close_browser reg iid dt).2 iid = none)
    ∧ (∀ k, k ∈ reg.map Prod.fst →
        regGet (close_all reg throws) k = none) := by
  refine ⟨?_, ?_, ?_⟩
  · cases h : regGet reg iid with
    | none => simp [close_browser, h]
    | some s => cases dt <;> simp [close_browser, h]
  · intro hne
    cases h : regGet reg iid with
    | none => exact absurd h hne
    | some s =>
      exact ⟨by cases dt <;> simp [close_browser, h],
        close_browser_regGet_self reg iid dt⟩
  · intro k hk
    exact close_fold_regGet_none (reg.map Prod.fst) throws reg k (Or.inl hk)

/-- C8 witness: closing a live instance whose remote delete throws still
returns true and removes it, and close_all with every delete throwing
leaves the previously tracked id absent. -/
theorem C8_close_semantics_witness :
    ((close_browser c8_reg (.vStr "s1") true).1 = true
      ∧ regGet (close_browser c8_reg (.vStr "s1") true).2 (.vStr "s1") = none)
    ∧ regGet (close_all c8_reg (fun _ => true)) (.vStr "s1") = none := by
  have h := C8_close_semantics c8_reg (.vStr "s1") true (fun _ => true)
  refine ⟨h.2.1 ?_, h.2.2 (.vStr "s1") ?_⟩
  · rw [show regGet c8_reg (.vStr "s1") = some c8_record from rfl]
    exact Option.some_ne_none _
  · simp [c8_reg]

/-- C9: the creation body always contains `durationMinutes`: it equals
`options.duration_minutes` when that is set and non-zero, and 60 when it
is unset or zero — an explicit 0 is silently replaced by 60. -/
theorem C9_duration_minutes_default (o : BrowserOptions) :
    (∀ n : Int, o.duration_minutes = some n → n ≠ 0 →
      dGet (spawn_request_body o) "durationMinutes" = some (.vInt n))
    ∧ (o.duration_minutes = none →
      dGet (spawn_request_body o) "durationMinutes" = some (.vInt 60))
    ∧ (o.duration_minutes = some 0 →
      dGet (spawn_request_body o) "durationMinutes" = some (.vInt 60)) := by
  obtain ⟨country, dm, pid, psig, ua, vw, vh⟩ := o
  refine ⟨?_, ?_, ?_⟩
  · intro n hdm hn
    simp only at hdm
    subst hdm
    have hb : (n != 0) = true := by simpa using hn
    cases country <;> cases pid <;>
      simp [spawn_request_body, hb, dSet, dGet] <;> split_ifs <;>
      simp [dSet, dGet]
  · intro hdm
    simp only at hdm
    subst hdm
    cases country <;> cases pid <;>
      simp [spawn_request_body, dSet, dGet] <;> split_ifs <;>
      simp [dSet, dGet]
  · intro hdm
    simp only at hdm
    subst hdm
    cases country <;> cases pid <;>
      simp [spawn_request_body, dSet, dGet] <;> split_ifs <;>
      simp [dSet, dGet]

/-- C9 witness: durations 30, unset and 0 produce body entries 30, 60 and
60 respectively. -/
theorem C9_duration_minutes_default_witness :
    dGet (spawn_request_body { duration_minutes := some 30 }) "durationMinutes"
      = some (.vInt 30)
    ∧ dGet (spawn_request_body { duration_minutes := none }) "durationMinutes"
      = some (.vInt 60)
    ∧ dGet (spawn_request_body { duration_minutes := some 0 }) "durationMinutes"
      = some (.vInt 60) :=
  ⟨(C9_duration_minutes_default { duration_minutes := some 30 }).1 30 rfl
      (by decide),
   (C9_duration_minutes_default { duration_minutes := none }).2.1 rfl,
   (C9_duration_minutes_default { duration_minutes := some 0 }).2.2 rfl⟩

/-- C10: when a successful creation response contains `session_token` with
value `None`, the stored token is `None` (the session-id default applies
only to an absent key), and every subsequent command for that instance
carries an Authorization header rendered from that `None` token, namely
"Bearer None". -/
theorem C10_null_token_header (o : BrowserOptions) (status : Nat)
    (body : List (String × PyVal)) (reg : Reg) (now : Nat) (s : String)
    (action : String) (params : Option (List (String × PyVal)))
    (resp2 : HttpResp) :
    (status = 200 ∨ status = 201) →
    dGet body "session_id" = some (.vStr s) →
    dGet body "session_token" = some .vNone →
    ∃ rec2,
      regGet (spawn_browser o ⟨status, body⟩ reg now).2 (.vStr s) = some rec2
      ∧ rec2.session_token = .vNone
      ∧ (send_command (spawn_browser o ⟨status, body⟩ reg now).2 (.vStr s)
            action params resp2).requests.map CmdRequest.headers
          = [[("Content-Type", "application/json"),
              ("Authorization", "Bearer None")]] := by
  intro hs hsid htok
  rcases hs with rfl | rfl <;>
    · simp only [spawn_browser, spawn_browser_try, hsid, Option.getD_some]
      norm_num
      have hget := regGet_regSet_self reg (.vStr s)
        { inst := { mkPendingInstance o now with
                      instance_id := .vStr s, state := .ready }
          session_id := .vStr s
          session_token := dGetD body "session_token" (.vStr s)
          expires_at := some (pyOr ((dGet body "expires_at").getD .vNone)
                                   ((dGet body "expiresAt").getD .vNone))
          proxy := some (dGetD body "proxy" (.vDict []))
          fingerprint := some (dGetD body "fingerprint" (.vDict []))
          loaded_profile_id := some ((dGet body "loaded_profile_id").getD .vNone) }
        (pvBeq_vStr_self s)
      refine ⟨_, hget, by simp [dGetD, htok], ?_⟩
      simp only [send_command, hget]
      split <;> simp [dGetD, htok, pyStr, pyRepr]

/-- C10 witness: a 200 creation whose body holds `session_token: None`
stores a `None` token under `s1`, and a later command to `s1` carries the
header "Bearer None". -/
theorem C10_null_token_header_witness :
    ∃ rec2,
      regGet (spawn_browser {} ⟨200, c10_body⟩ [] 0).2 (.vStr "s1") = some rec2
      ∧ rec2.session_token = .vNone
      ∧ (send_command (spawn_browser {} ⟨200, c10_body⟩ [] 0).2 (.vStr "s1")
            "click" none ⟨200, []⟩).requests.map CmdRequest.headers
          = [[("Content-Type", "application/json"),
              ("Authorization", "Bearer None")]] :=
  C10_null_token_header {} 200 c10_body [] 0 "s1" "click" none ⟨200, []⟩
    (Or.inl rfl) rfl rfl
